import Mathlib

/-
Verification of the downstage ADLS Gen2 client library
(src/downstage/utils.py, src/downstage/filesystem_api.py,
src/downstage/adlsfilesystem.py).

The Python code is shallowly embedded as pure Lean functions.  Mutable
client state (the requests session headers and the cached token expiry)
is threaded explicitly through a ClientState record; wall-clock reads
(datetime.datetime.now) and network responses (requests.Session verbs)
are drawn from an explicit World oracle holding a stream of clock values
and a stream of responses.  Every outgoing HTTP request is appended to a
log so that theorems can speak about which requests were issued and in
which order.  Python exceptions are modelled with Except.  Times are
integers counted in microseconds, matching the resolution of Python
datetime; a Python timedelta is falsy exactly when it is zero
microseconds, which the embedding reproduces.
-/

deriving instance DecidableEq for Except

namespace Downstage

/-- A scalar Python value as it appears in query-parameter dictionaries.
The obj constructor stands for non-scalar objects (self, a headers dict)
that can occur in a locals() dictionary; such entries are always removed
by the exclusion lists or never reach a request. -/
inductive PyVal where
  | str (s : String)
  | int (n : Int)
  | bool (b : Bool)
  | obj (tag : String)
deriving DecidableEq, Repr

abbrev Headers := List (String × String)

/-- Python dict assignment d[k] = v on an insertion-ordered dictionary:
replace the value in place when the key is present, append otherwise. -/
def dictSet (d : List (String × α)) (k : String) (v : α) : List (String × α) :=
  if d.any (fun p => p.1 = k) then
    d.map (fun p => if p.1 = k then (p.1, v) else p)
  else
    d ++ [(k, v)]

/-- Python dict.update: fold dictSet over the update entries. -/
def dictUpdate (d upd : List (String × α)) : List (String × α) :=
  upd.foldl (fun acc p => dictSet acc p.1 p.2) d

/-- Python dict lookup by key (first matching entry). -/
def dictGet (d : List (String × α)) (k : String) : Option α :=
  (d.find? (fun p => p.1 = k)).map (fun p => p.2)

/-- Python str.strip applied with the slash character: remove every
leading and trailing occurrence of the slash. -/
def stripSlashes (s : String) : String :=
  String.mk (((s.data.dropWhile (fun ch => ch == '/')).reverse.dropWhile
    (fun ch => ch == '/')).reverse)

/-- utils.join_url_parts: strip the slashes off every part and join the
parts with single slashes. -/
def join_url_parts (parts : List String) : String :=
  String.intercalate "/" (parts.map stripSlashes)

/-- Uppercase the first character of a string. -/
def capitalizeFirst (s : String) : String :=
  match s.data with
  | [] => s
  | ch :: rest => String.mk (ch.toUpper :: rest)

/-- Lowercase the first character of a string. -/
def lowerFirst (s : String) : String :=
  match s.data with
  | [] => s
  | ch :: rest => String.mk (ch.toLower :: rest)

/-- Split a character list at underscores, keeping empty pieces, as
str.split does for a one-character separator.  (Structural recursion is
used so that the definition reduces inside the kernel.) -/
def splitUnderscore : List Char → List (List Char)
  | [] => [[]]
  | c :: rest =>
    match splitUnderscore rest with
    | [] => [[]]
    | g :: gs => if c = '_' then [] :: g :: gs else (c :: g) :: gs

/-- inflection.camelize with uppercase_first_letter set to False, as
used by utils.get_params, on the snake_case identifiers that occur as
parameter names: the first underscore-separated piece keeps its case
except that its first letter is lowered, every later piece has its first
letter raised, and the underscores are dropped. -/
def camelize (s : String) : String :=
  match (splitUnderscore s.data).map String.mk with
  | [] => s
  | p :: ps => lowerFirst p ++ String.join (ps.map capitalizeFirst)

/-- The locals() dictionary of a wrapper method at the point where it
calls utils.get_params.  The named locals are listed in binding order
with Python None rendered as Option.none; the kwargs entry of locals()
is kept apart in its own field, mirroring that get_params merges its
items into the dictionary and pops the kwargs key. -/
structure Locals where
  entries : List (String × Option PyVal)
  kwargs : List (String × PyVal)
deriving DecidableEq, Repr

/-- utils.get_params with process_kwargs left at its default True, as at
every call site: merge the kwargs items into the parameters dictionary,
drop the kwargs key, then keep the entries that are set and not
excluded, camelizing each kept name. -/
def get_params (l : Locals) (exclusions : List String) : List (String × PyVal) :=
  let merged := dictUpdate l.entries (l.kwargs.map (fun p => (p.1, some p.2)))
  merged.filterMap (fun p =>
    match p.2 with
    | none => none
    | some v => if exclusions.contains p.1 then none else some (camelize p.1, v))

/-- HTTP method of an outgoing request. -/
inductive Method where
  | get | put | patch | post | delete | head
deriving DecidableEq, Repr

/-- The visible data of a requests.Response that the library reads:
status code, the two JSON fields the token handler extracts (absent
fields raise KeyError), and the raw body. -/
structure Response where
  status_code : Nat
  json_access_token : Option String
  json_expires_in : Option Int
  content : String
deriving DecidableEq, Repr

/-- An outgoing HTTP request as issued through the requests session.
session_headers is the snapshot of the session headers at send time
(requests merges them into the per-call headers). -/
structure HttpRequest where
  method : Method
  url : String
  params : List (String × PyVal)
  data : Option String
  headers : Option Headers
  session_headers : Headers
deriving DecidableEq, Repr

/-- The exceptions the embedded code can raise: requests.HTTPError from
raise_for_status (carrying the request method, the URL and the response)
and KeyError from a missing JSON field. -/
inductive PyErr where
  | httpError (method : Method) (url : String) (resp : Response)
  | keyError (key : String)
deriving DecidableEq, Repr

/-- The external world: the stream of values successive
datetime.datetime.now() calls return (microseconds), and the stream of
responses the network returns to successive requests. -/
structure World where
  clock : List Int
  net : List Response
deriving DecidableEq, Repr

/-- Response used when the oracle stream is exhausted; theorems always
supply enough responses for it never to be reached. -/
def defaultResponse : Response :=
  { status_code := 200, json_access_token := none, json_expires_in := none, content := "" }

/-- One datetime.datetime.now() call: pop the next clock value. -/
def World.now (w : World) : Int × World :=
  match w.clock with
  | [] => (0, w)
  | n :: rest => (n, { w with clock := rest })

/-- One network round trip: pop the next response. -/
def World.send (w : World) : Response × World :=
  match w.net with
  | [] => (defaultResponse, w)
  | r :: rest => (r, { w with net := rest })

/-- State of one OAuth2AdlsApiClient instance: the constructor
arguments, the derived base URL, the mutable session headers and the
cached token expiry (microseconds), None before the first refresh. -/
structure ClientState where
  account_name : String
  dns_suffix : String
  tenant_id : String
  client_id : String
  client_secret : String
  base_url : String
  session_headers : Headers
  oauth2_token_time_expiration : Option Int
deriving DecidableEq, Repr

/-- Result of running a piece of the embedded code: the requests issued
in order, the client state and world afterwards, and the returned value
or the exception that escaped. -/
structure Step (α : Type) where
  log : List HttpRequest
  state : ClientState
  world : World
  res : Except PyErr α
deriving Repr

/-- filesystem_api.ACCESS_TOKEN_REQUIRED_HEADERS. -/
def ACCESS_TOKEN_REQUIRED_HEADERS : Headers :=
  [("content-Type", "application/x-www-form-urlencoded")]

/-- filesystem_api.REQUIRED_HEADERS. -/
def REQUIRED_HEADERS : Headers :=
  [("content-type", "application/json")]

/-- filesystem_api.AUTH2_TOKEN_URL_TEMPLATE instantiated with a tenant. -/
def AUTH2_TOKEN_URL (tenant_id : String) : String :=
  "https://login.microsoftonline.com/" ++ tenant_id ++ "/oauth2/v2.0/token"

/-- filesystem_api.HTTPS_BASE_URL instantiated with account and suffix. -/
def HTTPS_BASE_URL (account_name dnssuffix : String) : String :=
  "https://" ++ account_name ++ "." ++ dnssuffix

/-- requests.Response.raise_for_status raises exactly for the 4xx and
5xx status ranges. -/
def raiseForStatus (r : Response) : Bool :=
  decide (400 ≤ r.status_code) && decide (r.status_code < 600)

/-- URL resolution shared by the verb methods: take the base URL when no
explicit URL is given, then join the endpoint onto it when the endpoint
is truthy (a non-empty string). -/
def resolveUrl (base : String) (urlArg endpointArg : Option String) : String :=
  let url := match urlArg with
    | none => base
    | some u => u
  match endpointArg with
  | none => url
  | some e => if e = "" then url else join_url_parts [url, e]

/-- The common trailing body of every verb method: resolve the URL, send
the request through the session (logging it), and run
_handle_http_error on the response.  The data argument is already a
string or absent at every call site, so the json.dumps branch of the
source is the identity here. -/
def send_raw (c : ClientState) (w : World) (method : Method)
    (urlArg endpointArg : Option String) (params : List (String × PyVal))
    (data : Option String) (headersArg : Option Headers) : Step Response :=
  let url := resolveUrl c.base_url urlArg endpointArg
  let (resp, w1) := w.send
  let req : HttpRequest :=
    { method := method, url := url, params := params, data := data,
      headers := headersArg, session_headers := c.session_headers }
  if raiseForStatus resp then
    { log := [req], state := c, world := w1,
      res := Except.error (PyErr.httpError method url resp) }
  else
    { log := [req], state := c, world := w1, res := Except.ok resp }

/-- The client-credentials request body built by _refresh_oauth2_token. -/
def tokenRequestBody (c : ClientState) : String :=
  "scope=https://storage.azure.com/.default&grant_type=client_credentials" ++
    "&client_id=" ++ c.client_id ++ "&client_secret=" ++ c.client_secret

/-- The POST _refresh_oauth2_token issues to the token endpoint. -/
def tokenPostRequest (c : ClientState) : HttpRequest :=
  { method := Method.post, url := AUTH2_TOKEN_URL c.tenant_id, params := [],
    data := some (tokenRequestBody c), headers := some ACCESS_TOKEN_REQUIRED_HEADERS,
    session_headers := c.session_headers }

/-- OAuth2AdlsApiClient._refresh_oauth2_token.  When an expiry is
recorded it reads the clock once to form time_until_expiration; the
refresh branch is taken when no expiry is recorded, when the timedelta
is zero (a zero timedelta is falsy in Python), or when it is negative.
In the refresh branch it POSTs to the token endpoint with the
client-credentials body (through _post with refresh_oauth2_token False,
inlined here as send_raw), runs _handle_http_error, merges
REQUIRED_HEADERS into the session headers, sets the Authorization
header from the access_token field, reads the clock again and records
the expiry 45 seconds short of expires_in.  Otherwise it is a no-op
returning None. -/
def refresh_oauth2_token (c : ClientState) (w : World) : Step (Option Response) :=
  let tue : Option Int × World :=
    match c.oauth2_token_time_expiration with
    | none => (none, w)
    | some exp =>
      let (n, w1) := w.now
      (some (exp - n), w1)
  let w1 := tue.2
  let expired : Bool :=
    match tue.1 with
    | none => true
    | some d => decide (d = 0) || decide (d < 0)
  if expired then
    let s := send_raw c w1 Method.post (some (AUTH2_TOKEN_URL c.tenant_id)) none
      [] (some (tokenRequestBody c)) (some ACCESS_TOKEN_REQUIRED_HEADERS)
    match s.res with
    | Except.error e => { log := s.log, state := s.state, world := s.world, res := Except.error e }
    | Except.ok resp =>
      let h1 := dictUpdate s.state.session_headers REQUIRED_HEADERS
      match resp.json_access_token with
      | none =>
        { log := s.log, state := { s.state with session_headers := h1 },
          world := s.world, res := Except.error (PyErr.keyError "access_token") }
      | some tok =>
        let h2 := dictSet h1 "Authorization" ("Bearer " ++ tok)
        match resp.json_expires_in with
        | none =>
          { log := s.log, state := { s.state with session_headers := h2 },
            world := s.world, res := Except.error (PyErr.keyError "expires_in") }
        | some ein =>
          let (n2, w2) := s.world.now
          { log := s.log,
            state := { s.state with
              session_headers := h2,
              oauth2_token_time_expiration := some (n2 + (ein - 45) * 1000000) },
            world := w2, res := Except.ok (some resp) }
  else
    { log := [], state := c, world := w1, res := Except.ok none }

/-- OAuth2AdlsApiClient._delete: refresh the token, then send. -/
def _delete (c : ClientState) (w : World) (urlArg endpointArg : Option String)
    (params : List (String × PyVal)) (headersArg : Option Headers) : Step Response :=
  let r := refresh_oauth2_token c w
  match r.res with
  | Except.error e => { log := r.log, state := r.state, world := r.world, res := Except.error e }
  | Except.ok _ =>
    let s := send_raw r.state r.world Method.delete urlArg endpointArg params none headersArg
    { log := r.log ++ s.log, state := s.state, world := s.world, res := s.res }

/-- OAuth2AdlsApiClient._get: refresh the token, then send. -/
def _get (c : ClientState) (w : World) (urlArg endpointArg : Option String)
    (params : List (String × PyVal)) (headersArg : Option Headers) : Step Response :=
  let r := refresh_oauth2_token c w
  match r.res with
  | Except.error e => { log := r.log, state := r.state, world := r.world, res := Except.error e }
  | Except.ok _ =>
    let s := send_raw r.state r.world Method.get urlArg endpointArg params none headersArg
    { log := r.log ++ s.log, state := s.state, world := s.world, res := s.res }

/-- OAuth2AdlsApiClient._head: refresh the token, then send. -/
def _head (c : ClientState) (w : World) (urlArg endpointArg : Option String)
    (params : List (String × PyVal)) (headersArg : Option Headers) : Step Response :=
  let r := refresh_oauth2_token c w
  match r.res with
  | Except.error e => { log := r.log, state := r.state, world := r.world, res := Except.error e }
  | Except.ok _ =>
    let s := send_raw r.state r.world Method.head urlArg endpointArg params none headersArg
    { log := r.log ++ s.log, state := s.state, world := s.world, res := s.res }

/-- OAuth2AdlsApiClient._patch: refresh the token, then send with a
body. -/
def _patch (c : ClientState) (w : World) (urlArg endpointArg : Option String)
    (params : List (String × PyVal)) (data : Option String)
    (headersArg : Option Headers) : Step Response :=
  let r := refresh_oauth2_token c w
  match r.res with
  | Except.error e => { log := r.log, state := r.state, world := r.world, res := Except.error e }
  | Except.ok _ =>
    let s := send_raw r.state r.world Method.patch urlArg endpointArg params data headersArg
    { log := r.log ++ s.log, state := s.state, world := s.world, res := s.res }

/-- OAuth2AdlsApiClient._post: refresh the token unless the
refresh_oauth2_token flag is cleared, then send with a body.  The files
argument of the source is None at both call sites (lease_path and the
token refresh) and is not represented in the logged request. -/
def _post (c : ClientState) (w : World) (urlArg endpointArg : Option String)
    (params : List (String × PyVal)) (data : Option String)
    (headersArg : Option Headers) (refreshFlag : Bool) : Step Response :=
  if refreshFlag then
    let r := refresh_oauth2_token c w
    match r.res with
    | Except.error e => { log := r.log, state := r.state, world := r.world, res := Except.error e }
    | Except.ok _ =>
      let s := send_raw r.state r.world Method.post urlArg endpointArg params data headersArg
      { log := r.log ++ s.log, state := s.state, world := s.world, res := s.res }
  else
    send_raw c w Method.post urlArg endpointArg params data headersArg

/-- OAuth2AdlsApiClient._put: refresh the token, then send with a
body. -/
def _put (c : ClientState) (w : World) (urlArg endpointArg : Option String)
    (params : List (String × PyVal)) (data : Option String)
    (headersArg : Option Headers) : Step Response :=
  let r := refresh_oauth2_token c w
  match r.res with
  | Except.error e => { log := r.log, state := r.state, world := r.world, res := Except.error e }
  | Except.ok _ =>
    let s := send_raw r.state r.world Method.put urlArg endpointArg params data headersArg
    { log := r.log ++ s.log, state := s.state, world := s.world, res := s.res }

/-- filesystem_api.Command: the result envelope pairing the issuing
client with the raw response.  The source stores a reference to the
mutable client object; the embedding snapshots its state at creation
time.  The response component is Option-typed because the value the
constructor receives in OAuth2AdlsApiClient.__init__ is the return of
_refresh_oauth2_token, whose valid-token branch returns None. -/
structure Command where
  api_client : ClientState
  response : Option Response
deriving DecidableEq, Repr

/-- Return value of a public wrapper operation: a Command for eleven of
the twelve operations, and for list_filesystem the parsed JSON body of
the response (jsonDict none standing for the literal empty dict the
source returns when the body is empty). -/
inductive OpResult where
  | command (cmd : Command)
  | jsonDict (source : Option Response)
deriving DecidableEq, Repr

/-- Whether an operation returned a Command. -/
def OpResult.isCommand : OpResult → Bool
  | command _ => true
  | jsonDict _ => false

/-- The locals() entry for a headers argument: an opaque dict object
when passed, Python None otherwise. -/
def headersLocal (h : Option Headers) : Option PyVal :=
  h.map (fun _ => PyVal.obj "headers")

/-- The locals() entry for self. -/
def selfLocal : String × Option PyVal := ("self", some (PyVal.obj "self"))

/-- Wrap a verb result into a Command, as the trailing
return Command(self, response) of the wrapper methods. -/
def toCommandStep (s : Step Response) : Step OpResult :=
  match s.res with
  | Except.error e => { log := s.log, state := s.state, world := s.world, res := Except.error e }
  | Except.ok resp =>
    { log := s.log, state := s.state, world := s.world,
      res := Except.ok (OpResult.command { api_client := s.state, response := some resp }) }

/-- ApiClient.list_filesystem: GET on the base URL with
resource=account; returns the parsed JSON body, or an empty dict when
the body is empty (the one wrapper that does not return a Command). -/
def list_filesystem (c : ClientState) (w : World) (headersArg : Option Headers)
    (kwargs : List (String × PyVal)) : Step OpResult :=
  let l : Locals :=
    { entries := [selfLocal,
                  ("headers", headersLocal headersArg),
                  ("resource", some (PyVal.str "account"))],
      kwargs := kwargs }
  let params := get_params l ["self", "filesystem_identifier", "headers"]
  let s := _get c w none none params headersArg
  match s.res with
  | Except.error e => { log := s.log, state := s.state, world := s.world, res := Except.error e }
  | Except.ok resp =>
    { log := s.log, state := s.state, world := s.world,
      res := Except.ok (OpResult.jsonDict (if resp.content = "" then none else some resp)) }

/-- ApiClient.create_filesystem: PUT on the filesystem endpoint with
resource=filesystem. -/
def create_filesystem (c : ClientState) (w : World) (filesystem_identifier : String)
    (headersArg : Option Headers) (kwargs : List (String × PyVal)) : Step OpResult :=
  let l : Locals :=
    { entries := [selfLocal,
                  ("filesystem_identifier", some (PyVal.str filesystem_identifier)),
                  ("headers", headersLocal headersArg),
                  ("resource", some (PyVal.str "filesystem"))],
      kwargs := kwargs }
  let params := get_params l ["self", "filesystem_identifier", "headers"]
  toCommandStep (_put c w none (some filesystem_identifier) params none headersArg)

/-- ApiClient.delete_filesystem: DELETE on the filesystem endpoint with
resource=filesystem. -/
def delete_filesystem (c : ClientState) (w : World) (filesystem_identifier : String)
    (headersArg : Option Headers) (kwargs : List (String × PyVal)) : Step OpResult :=
  let l : Locals :=
    { entries := [selfLocal,
                  ("filesystem_identifier", some (PyVal.str filesystem_identifier)),
                  ("headers", headersLocal headersArg),
                  ("resource", some (PyVal.str "filesystem"))],
      kwargs := kwargs }
  let params := get_params l ["self", "filesystem_identifier", "headers"]
  toCommandStep (_delete c w none (some filesystem_identifier) params headersArg)

/-- ApiClient.get_filesystem_properties: HEAD on the filesystem endpoint
with resource=filesystem. -/
def get_filesystem_properties (c : ClientState) (w : World) (filesystem_identifier : String)
    (headersArg : Option Headers) (kwargs : List (String × PyVal)) : Step OpResult :=
  let l : Locals :=
    { entries := [selfLocal,
                  ("filesystem_identifier", some (PyVal.str filesystem_identifier)),
                  ("headers", headersLocal headersArg),
                  ("resource", some (PyVal.str "filesystem"))],
      kwargs := kwargs }
  let params := get_params l ["self", "filesystem_identifier", "headers"]
  toCommandStep (_head c w none (some filesystem_identifier) params headersArg)

/-- ApiClient.set_filesystem_properties: PATCH on the filesystem
endpoint with resource=filesystem. -/
def set_filesystem_properties (c : ClientState) (w : World) (filesystem_identifier : String)
    (headersArg : Option Headers) (kwargs : List (String × PyVal)) : Step OpResult :=
  let l : Locals :=
    { entries := [selfLocal,
                  ("filesystem_identifier", some (PyVal.str filesystem_identifier)),
                  ("headers", headersLocal headersArg),
                  ("resource", some (PyVal.str "filesystem"))],
      kwargs := kwargs }
  let params := get_params l ["self", "filesystem_identifier", "headers"]
  toCommandStep (_patch c w none (some filesystem_identifier) params none headersArg)

/-- ApiClient.create_path: PUT on the filesystem/path endpoint. -/
def create_path (c : ClientState) (w : World) (filesystem_identifier path : String)
    (headersArg : Option Headers) (kwargs : List (String × PyVal)) : Step OpResult :=
  let l : Locals :=
    { entries := [selfLocal,
                  ("filesystem_identifier", some (PyVal.str filesystem_identifier)),
                  ("path", some (PyVal.str path)),
                  ("headers", headersLocal headersArg)],
      kwargs := kwargs }
  let params := get_params l ["self", "filesystem_identifier", "path", "headers"]
  toCommandStep
    (_put c w none (some (filesystem_identifier ++ "/" ++ path)) params none headersArg)

/-- ApiClient.delete_path: DELETE on the filesystem/path endpoint with a
recursive flag defaulting to True. -/
def delete_path (c : ClientState) (w : World) (filesystem_identifier path : String)
    (recursive : Bool) (headersArg : Option Headers)
    (kwargs : List (String × PyVal)) : Step OpResult :=
  let l : Locals :=
    { entries := [selfLocal,
                  ("filesystem_identifier", some (PyVal.str filesystem_identifier)),
                  ("path", some (PyVal.str path)),
                  ("recursive", some (PyVal.bool recursive)),
                  ("headers", headersLocal headersArg)],
      kwargs := kwargs }
  let params := get_params l ["self", "filesystem_identifier", "path", "headers"]
  toCommandStep
    (_delete c w none (some (filesystem_identifier ++ "/" ++ path)) params headersArg)

/-- ApiClient.list_path: GET on the filesystem endpoint with
resource=filesystem and a recursive flag defaulting to True. -/
def list_path (c : ClientState) (w : World) (filesystem_identifier : String)
    (recursive : Bool) (headersArg : Option Headers)
    (kwargs : List (String × PyVal)) : Step OpResult :=
  let l : Locals :=
    { entries := [selfLocal,
                  ("filesystem_identifier", some (PyVal.str filesystem_identifier)),
                  ("recursive", some (PyVal.bool recursive)),
                  ("headers", headersLocal headersArg),
                  ("resource", some (PyVal.str "filesystem"))],
      kwargs := kwargs }
  let params := get_params l ["self", "filesystem_identifier", "headers"]
  toCommandStep (_get c w none (some filesystem_identifier) params headersArg)

/-- ApiClient.read_path: GET on the filesystem/path endpoint. -/
def read_path (c : ClientState) (w : World) (filesystem_identifier path : String)
    (headersArg : Option Headers) (kwargs : List (String × PyVal)) : Step OpResult :=
  let l : Locals :=
    { entries := [selfLocal,
                  ("filesystem_identifier", some (PyVal.str filesystem_identifier)),
                  ("path", some (PyVal.str path)),
                  ("headers", headersLocal headersArg)],
      kwargs := kwargs }
  let params := get_params l ["self", "filesystem_identifier", "path", "headers"]
  toCommandStep
    (_get c w none (some (filesystem_identifier ++ "/" ++ path)) params headersArg)

/-- ApiClient.update_path: PATCH on the filesystem/path endpoint with an
optional body.  The exclusion list of the source reads pat where the
seven sibling wrappers read path, so the path argument is not filtered
out of the query parameters here; the embedding preserves that list
verbatim. -/
def update_path (c : ClientState) (w : World) (filesystem_identifier path : String)
    (data : Option String) (headersArg : Option Headers)
    (kwargs : List (String × PyVal)) : Step OpResult :=
  let l : Locals :=
    { entries := [selfLocal,
                  ("filesystem_identifier", some (PyVal.str filesystem_identifier)),
                  ("path", some (PyVal.str path)),
                  ("data", data.map PyVal.str),
                  ("headers", headersLocal headersArg)],
      kwargs := kwargs }
  let params := get_params l ["self", "filesystem_identifier", "pat", "data", "headers"]
  toCommandStep
    (_patch c w none (some (filesystem_identifier ++ "/" ++ path)) params data headersArg)

/-- ApiClient.get_path_properties: HEAD on the filesystem/path
endpoint. -/
def get_path_properties (c : ClientState) (w : World) (filesystem_identifier path : String)
    (headersArg : Option Headers) (kwargs : List (String × PyVal)) : Step OpResult :=
  let l : Locals :=
    { entries := [selfLocal,
                  ("filesystem_identifier", some (PyVal.str filesystem_identifier)),
                  ("path", some (PyVal.str path)),
                  ("headers", headersLocal headersArg)],
      kwargs := kwargs }
  let params := get_params l ["self", "filesystem_identifier", "path", "headers"]
  toCommandStep
    (_head c w none (some (filesystem_identifier ++ "/" ++ path)) params headersArg)

/-- ApiClient.lease_path: POST on the filesystem/path endpoint (with the
token-refresh flag at its default True). -/
def lease_path (c : ClientState) (w : World) (filesystem_identifier path : String)
    (headersArg : Option Headers) (kwargs : List (String × PyVal)) : Step OpResult :=
  let l : Locals :=
    { entries := [selfLocal,
                  ("filesystem_identifier", some (PyVal.str filesystem_identifier)),
                  ("path", some (PyVal.str path)),
                  ("headers", headersLocal headersArg)],
      kwargs := kwargs }
  let params := get_params l ["self", "filesystem_identifier", "path", "headers"]
  toCommandStep
    (_post c w none (some (filesystem_identifier ++ "/" ++ path)) params none headersArg true)

/-- The default headers of a fresh requests.Session: the library never
reads them, so they are modelled as empty. -/
def requestsSessionHeaders : Headers := []

/-- OAuth2AdlsApiClient.__init__: record the credentials, derive the
base URL, create the session, clear the expiry and run the first
refresh, wrapping its return in a Command.  The
refresh_oauth2_token_command attribute is returned as the second
component of the pair, since ClientState cannot contain a Command. -/
def OAuth2AdlsApiClient_init (account_name dns_suffix tenant_id client_id client_secret : String)
    (w : World) : Step (ClientState × Command) :=
  let c0 : ClientState :=
    { account_name := account_name, dns_suffix := dns_suffix, tenant_id := tenant_id,
      client_id := client_id, client_secret := client_secret,
      base_url := HTTPS_BASE_URL account_name dns_suffix,
      session_headers := requestsSessionHeaders,
      oauth2_token_time_expiration := none }
  let s := refresh_oauth2_token c0 w
  match s.res with
  | Except.error e => { log := s.log, state := s.state, world := s.world, res := Except.error e }
  | Except.ok r =>
    { log := s.log, state := s.state, world := s.world,
      res := Except.ok (s.state, { api_client := s.state, response := r }) }

/-- State of an AdlsFileSystem object: its api client, the filesystem
identifier and the protocol-version headers set by __init__. -/
structure FsState where
  api_client : ClientState
  filesystem_id : String
  headers : Headers
deriving DecidableEq, Repr

/-- The headers AdlsFileSystem.__init__ installs. -/
def AdlsFileSystem_headers : Headers := [("x-ms-version", "2018-11-09")]

/-- AdlsFileSystem.write: append the contents at the given position via
update_path (Content-Length set to the length of the contents), then
flush at position plus that length via a second update_path with a
zero Content-Length and the content type header, returning the flush
Command. -/
def write (f : FsState) (w : World) (path contents : String)
    (content_type : String) (position : Int) : Step OpResult :=
  let contents_length : Int := Int.ofNat contents.length
  let kwargs1 := [("action", PyVal.str "append"), ("position", PyVal.int position)]
  let headers1 := dictUpdate [("Content-Length", toString contents_length)] f.headers
  let s1 := update_path f.api_client w f.filesystem_id path (some contents) (some headers1) kwargs1
  match s1.res with
  | Except.error e => { log := s1.log, state := s1.state, world := s1.world, res := Except.error e }
  | Except.ok _ =>
    let kwargs2 := [("action", PyVal.str "flush"),
                    ("position", PyVal.int (position + contents_length))]
    let headers2 := dictUpdate [("Content-Length", "0"), ("x-ms-content-type", content_type)]
      f.headers
    let s2 := update_path s1.state s1.world f.filesystem_id path none (some headers2) kwargs2
    { log := s1.log ++ s2.log, state := s2.state, world := s2.world, res := s2.res }

/-- A call to one of the six verb methods, for reasoning about
sequences of dispatched operations. -/
inductive Dispatch where
  | get (urlArg endpointArg : Option String) (params : List (String × PyVal))
      (headersArg : Option Headers)
  | put (urlArg endpointArg : Option String) (params : List (String × PyVal))
      (data : Option String) (headersArg : Option Headers)
  | patch (urlArg endpointArg : Option String) (params : List (String × PyVal))
      (data : Option String) (headersArg : Option Headers)
  | post (urlArg endpointArg : Option String) (params : List (String × PyVal))
      (data : Option String) (headersArg : Option Headers)
  | delete (urlArg endpointArg : Option String) (params : List (String × PyVal))
      (headersArg : Option Headers)
  | head (urlArg endpointArg : Option String) (params : List (String × PyVal))
      (headersArg : Option Headers)
deriving DecidableEq, Repr

/-- Run one dispatched verb call (post with its default refresh flag,
as every public operation uses it). -/
def runDispatch (c : ClientState) (w : World) : Dispatch → Step Response
  | Dispatch.get u e p h => _get c w u e p h
  | Dispatch.put u e p d h => _put c w u e p d h
  | Dispatch.patch u e p d h => _patch c w u e p d h
  | Dispatch.post u e p d h => _post c w u e p d h true
  | Dispatch.delete u e p h => _delete c w u e p h
  | Dispatch.head u e p h => _head c w u e p h

/-- The URL a dispatched call resolves against a base URL. -/
def Dispatch.resolvedUrl (base : String) : Dispatch → String
  | Dispatch.get u e _ _ => resolveUrl base u e
  | Dispatch.put u e _ _ _ => resolveUrl base u e
  | Dispatch.patch u e _ _ _ => resolveUrl base u e
  | Dispatch.post u e _ _ _ => resolveUrl base u e
  | Dispatch.delete u e _ _ => resolveUrl base u e
  | Dispatch.head u e _ _ => resolveUrl base u e

/-- The request a dispatched call sends from a given client state. -/
def Dispatch.requestOf (c : ClientState) : Dispatch → HttpRequest
  | Dispatch.get u e p h =>
    { method := Method.get, url := resolveUrl c.base_url u e, params := p,
      data := none, headers := h, session_headers := c.session_headers }
  | Dispatch.put u e p d h =>
    { method := Method.put, url := resolveUrl c.base_url u e, params := p,
      data := d, headers := h, session_headers := c.session_headers }
  | Dispatch.patch u e p d h =>
    { method := Method.patch, url := resolveUrl c.base_url u e, params := p,
      data := d, headers := h, session_headers := c.session_headers }
  | Dispatch.post u e p d h =>
    { method := Method.post, url := resolveUrl c.base_url u e, params := p,
      data := d, headers := h, session_headers := c.session_headers }
  | Dispatch.delete u e p h =>
    { method := Method.delete, url := resolveUrl c.base_url u e, params := p,
      data := none, headers := h, session_headers := c.session_headers }
  | Dispatch.head u e p h =>
    { method := Method.head, url := resolveUrl c.base_url u e, params := p,
      data := none, headers := h, session_headers := c.session_headers }

/-- Run a sequence of dispatched calls, stopping at the first
exception, accumulating the request log. -/
def runTrace (c : ClientState) (w : World) : List Dispatch → Step Unit
  | [] => { log := [], state := c, world := w, res := Except.ok () }
  | d :: ds =>
    let s := runDispatch c w d
    match s.res with
    | Except.error e => { log := s.log, state := s.state, world := s.world, res := Except.error e }
    | Except.ok _ =>
      let t := runTrace s.state s.world ds
      { log := s.log ++ t.log, state := t.state, world := t.world, res := t.res }

/-- Number of requests in a log that target the token endpoint of a
tenant. -/
def tokenCount (tenant_id : String) (log : List HttpRequest) : Nat :=
  log.countP (fun r => r.url == AUTH2_TOKEN_URL tenant_id)

/-- The condition under which _refresh_oauth2_token takes the refresh
branch at clock value n: no expiry recorded, or the recorded expiry
minus n is zero or negative. -/
def tokenDue (c : ClientState) (n : Int) : Bool :=
  match c.oauth2_token_time_expiration with
  | none => true
  | some exp => decide (exp - n ≤ 0)

/-- The HTTP method of a dispatched verb call. -/
def Dispatch.methodOf : Dispatch → Method
  | Dispatch.get _ _ _ _ => Method.get
  | Dispatch.put _ _ _ _ _ => Method.put
  | Dispatch.patch _ _ _ _ _ => Method.patch
  | Dispatch.post _ _ _ _ _ => Method.post
  | Dispatch.delete _ _ _ _ => Method.delete
  | Dispatch.head _ _ _ _ => Method.head

/-- The client state OAuth2AdlsApiClient.__init__ builds before its
first refresh. -/
def initClientState (account_name dns_suffix tenant_id client_id client_secret : String) :
    ClientState :=
  { account_name := account_name, dns_suffix := dns_suffix, tenant_id := tenant_id,
    client_id := client_id, client_secret := client_secret,
    base_url := HTTPS_BASE_URL account_name dns_suffix,
    session_headers := requestsSessionHeaders,
    oauth2_token_time_expiration := none }

/-- The client state after a successful refresh that extracted token
tok and lifetime ein from the response, the second clock read giving
n2. -/
def refreshedState (c : ClientState) (tok : String) (ein n2 : Int) : ClientState :=
  { c with
    session_headers :=
      dictSet (dictUpdate c.session_headers REQUIRED_HEADERS) "Authorization" ("Bearer " ++ tok),
    oauth2_token_time_expiration := some (n2 + (ein - 45) * 1000000) }

/-- Whether a wrapper operation either raised or returned a Command. -/
def returnsCommandUnlessRaised (s : Step OpResult) : Bool :=
  match s.res with
  | Except.ok r => r.isCommand
  | Except.error _ => true

/-- A sample client with a recorded token expiry one second from clock
zero, used to instantiate theorems with hypotheses. -/
def sampleClient : ClientState :=
  { account_name := "acct", dns_suffix := "dfs.core.windows.net",
    tenant_id := "ten", client_id := "cid", client_secret := "sec",
    base_url := HTTPS_BASE_URL "acct" "dfs.core.windows.net",
    session_headers := [("content-type", "application/json"), ("Authorization", "Bearer old")],
    oauth2_token_time_expiration := some 1000000 }

/-- A sample successful token-endpoint response. -/
def token200 : Response :=
  { status_code := 200, json_access_token := some "newtok", json_expires_in := some 3600,
    content := "tokenbody" }

/-- A sample 404 response with no JSON fields. -/
def resp404 : Response :=
  { status_code := 404, json_access_token := none, json_expires_in := none, content := "gone" }

/-- A sample 201 response with no JSON fields. -/
def resp201 : Response :=
  { status_code := 201, json_access_token := none, json_expires_in := none, content := "made" }

/-- A sample 200 response with a nonempty body. -/
def resp200 : Response :=
  { status_code := 200, json_access_token := none, json_expires_in := none, content := "body" }

/-- A sample 300 response that nevertheless carries token fields. -/
def resp300 : Response :=
  { status_code := 300, json_access_token := some "oddtok", json_expires_in := some 3600,
    content := "odd" }

/-- A sample filesystem object over sampleClient. -/
def fsSample : FsState :=
  { api_client := sampleClient, filesystem_id := "fs", headers := AdlsFileSystem_headers }
def wC5ex : World :=
  ⟨[0, 5, 3555000000, 3555000001], [token200, resp201, token200, resp200]⟩

def opsC5ex : List Dispatch := [Dispatch.get none (some "fs") [] none]

def dC5ex : Dispatch := Dispatch.get none (some "fs2") [] none

def sInitC5ex : Step (ClientState × Command) :=
  OAuth2AdlsApiClient_init "acct" "dfs.core.windows.net" "ten" "cid" "sec" wC5ex

def tC5ex : Step Unit := runTrace sInitC5ex.state sInitC5ex.world opsC5ex

def uC5ex : Step Response := runDispatch tC5ex.state tC5ex.world dC5ex

/- ===================== Theorems ===================== -/

/-- Looking up the key just written by a Python dict assignment yields
the written value, whether the key was present (in-place replacement)
or new (appended). -/
theorem dictGet_dictSet (d : List (String × α)) (k : String) (v : α) :
    dictGet (dictSet d k v) k = some v := by
  induction d with
  | nil => simp [dictGet, dictSet]
  | cons a d ih =>
    by_cases hak : a.1 = k
    · simp [dictGet, dictSet, hak]
    · by_cases hd : d.any (fun p => p.1 = k)
      · have h1 : dictSet (a :: d) k v
            = a :: List.map (fun p => if p.1 = k then (p.1, v) else p) d := by
          simp [dictSet, hak, hd]
        have h2 : dictSet d k v = List.map (fun p => if p.1 = k then (p.1, v) else p) d := by
          simp [dictSet, hd]
        unfold dictGet
        rw [h1, List.find?_cons_of_neg]
        · rw [h2] at ih
          unfold dictGet at ih
          exact ih
        · simpa using hak
      · have h1 : dictSet (a :: d) k v = a :: (d ++ [(k, v)]) := by
          simp [dictSet, hak, hd]
        have h2 : dictSet d k v = d ++ [(k, v)] := by
          simp [dictSet, hd]
        unfold dictGet
        rw [h1, List.find?_cons_of_neg]
        · rw [h2] at ih
          unfold dictGet at ih
          exact ih
        · simpa using hak

/-- Characterization of _refresh_oauth2_token when a recorded expiry is
still in the future: nothing is sent, the state is untouched, one clock
value is consumed, None is returned. -/
theorem refresh_fresh (c : ClientState) (w : World) (exp n : Int) (rest : List Int)
    (hexp : c.oauth2_token_time_expiration = some exp)
    (hclock : w.clock = n :: rest)
    (hlt : 0 < exp - n) :
    refresh_oauth2_token c w = ⟨[], c, ⟨rest, w.net⟩, Except.ok none⟩ := by
  unfold refresh_oauth2_token
  rw [hexp]
  have h1 : ¬(exp - n = 0) := by omega
  have h2 : ¬(exp - n < 0) := by omega
  simp [World.now, hclock, h1, h2]

/-- Characterization of send_raw on a world whose next response is
known. -/
theorem send_raw_eq (c : ClientState) (w : World) (m : Method)
    (u e : Option String) (p : List (String × PyVal)) (d : Option String)
    (h : Option Headers) (resp : Response) (netRest : List Response)
    (hnet : w.net = resp :: netRest) :
    send_raw c w m u e p d h =
      ⟨[{ method := m, url := resolveUrl c.base_url u e, params := p, data := d,
          headers := h, session_headers := c.session_headers }], c, ⟨w.clock, netRest⟩,
        if raiseForStatus resp then
          Except.error (PyErr.httpError m (resolveUrl c.base_url u e) resp)
        else Except.ok resp⟩ := by
  unfold send_raw World.send
  rw [hnet]
  by_cases hr : raiseForStatus resp
  · simp [hr]
  · simp [hr]

/-- send_raw always logs exactly the request it sends. -/
theorem send_raw_log (c : ClientState) (w : World) (m : Method)
    (u e : Option String) (p : List (String × PyVal)) (d : Option String)
    (h : Option Headers) :
    (send_raw c w m u e p d h).log =
      [{ method := m, url := resolveUrl c.base_url u e, params := p, data := d,
         headers := h, session_headers := c.session_headers }] := by
  unfold send_raw
  split
  split
  · rfl
  · rfl

/-- Characterization of a successful refresh from a recorded but
elapsed expiry: one token POST, headers and expiry updated, the second
clock value taken as the new base time. -/
theorem refresh_due_some_success (c : ClientState) (w : World) (exp n n2 : Int)
    (rest2 : List Int) (resp : Response) (netRest : List Response) (tok : String) (ein : Int)
    (hexp : c.oauth2_token_time_expiration = some exp)
    (hclock : w.clock = n :: n2 :: rest2)
    (hle : exp - n ≤ 0)
    (hnet : w.net = resp :: netRest)
    (hok : raiseForStatus resp = false)
    (htok : resp.json_access_token = some tok)
    (hein : resp.json_expires_in = some ein) :
    refresh_oauth2_token c w =
      ⟨[tokenPostRequest c], refreshedState c tok ein n2, ⟨rest2, netRest⟩,
        Except.ok (some resp)⟩ := by
  unfold refresh_oauth2_token
  rw [hexp]
  have hcond : (decide (exp - n = 0) || decide (exp - n < 0)) = true := by
    rcases lt_or_eq_of_le hle with h | h
    · simp [h]
    · simp [h]
  simp only [hclock, World.now, hnet, hcond, if_true]
  rw [send_raw_eq c ⟨n2 :: rest2, resp :: netRest⟩ Method.post _ _ _ _ _ resp netRest rfl]
  simp [hok, resolveUrl, htok, hein, refreshedState, tokenPostRequest, World.now]

/-- Characterization of a successful refresh from a client with no
recorded expiry (the constructor case): only one clock value is
consumed, since the time-until-expiration computation is skipped. -/
theorem refresh_due_none_success (c : ClientState) (w : World) (n2 : Int)
    (rest2 : List Int) (resp : Response) (netRest : List Response) (tok : String) (ein : Int)
    (hexp : c.oauth2_token_time_expiration = none)
    (hclock : w.clock = n2 :: rest2)
    (hnet : w.net = resp :: netRest)
    (hok : raiseForStatus resp = false)
    (htok : resp.json_access_token = some tok)
    (hein : resp.json_expires_in = some ein) :
    refresh_oauth2_token c w =
      ⟨[tokenPostRequest c], refreshedState c tok ein n2, ⟨rest2, netRest⟩,
        Except.ok (some resp)⟩ := by
  unfold refresh_oauth2_token
  rw [hexp]
  simp only []
  rw [send_raw_eq c w Method.post _ _ _ _ _ resp netRest hnet]
  simp [hok, resolveUrl, htok, hein, refreshedState, tokenPostRequest, World.now, hclock]

/-- Whenever the refresh branch is taken, exactly the token POST is
logged, whatever the response. -/
theorem refresh_due_log (c : ClientState) (w : World) (n : Int) (rest : List Int)
    (hclock : w.clock = n :: rest)
    (hdue : tokenDue c n = true) :
    (refresh_oauth2_token c w).log = [tokenPostRequest c] := by
  unfold refresh_oauth2_token
  rcases hexp : c.oauth2_token_time_expiration with _ | exp
  · simp only [hexp]
    repeat' split
    all_goals simp_all [send_raw_log, tokenPostRequest, resolveUrl]
  · have hle : exp - n ≤ 0 := by
      have := hdue
      simp [tokenDue, hexp] at this
      omega
    have hcond : (decide (exp - n = 0) || decide (exp - n < 0)) = true := by
      rcases lt_or_eq_of_le hle with h | h
      · simp [h]
      · simp [h]
    simp only [hexp, World.now, hclock, hcond, if_true]
    repeat' split
    all_goals simp_all [send_raw_log, tokenPostRequest, resolveUrl]

/-- A refresh whose token POST comes back 4xx/5xx raises the HTTPError
and leaves the client state exactly as it was. -/
theorem refresh_due_error (c : ClientState) (w : World) (n : Int) (rest : List Int)
    (resp : Response) (netRest : List Response)
    (hclock : w.clock = n :: rest)
    (hdue : tokenDue c n = true)
    (hnet : w.net = resp :: netRest)
    (hfail : raiseForStatus resp = true) :
    (refresh_oauth2_token c w).res =
      Except.error (PyErr.httpError Method.post (AUTH2_TOKEN_URL c.tenant_id) resp) ∧
    (refresh_oauth2_token c w).state = c := by
  unfold refresh_oauth2_token
  rcases hexp : c.oauth2_token_time_expiration with _ | exp
  · simp only [hexp]
    rw [send_raw_eq c w Method.post _ _ _ _ _ resp netRest hnet]
    simp [hfail, resolveUrl]
  · have hle : exp - n ≤ 0 := by
      have := hdue
      simp [tokenDue, hexp] at this
      omega
    have hcond : (decide (exp - n = 0) || decide (exp - n < 0)) = true := by
      rcases lt_or_eq_of_le hle with h | h
      · simp [h]
      · simp [h]
    simp only [hexp, World.now, hclock, hcond, if_true, hnet]
    rw [send_raw_eq c ⟨rest, resp :: netRest⟩ Method.post _ _ _ _ _ resp netRest rfl]
    simp [hfail, resolveUrl]

/-- Characterization of a dispatched verb call under a still-valid
token: the refresh is a no-op and exactly the one request goes out,
its outcome decided by raise_for_status. -/
theorem runDispatch_fresh (c : ClientState) (w : World) (exp n : Int) (rest : List Int)
    (resp : Response) (netRest : List Response) (d : Dispatch)
    (hexp : c.oauth2_token_time_expiration = some exp)
    (hclock : w.clock = n :: rest)
    (hlt : 0 < exp - n)
    (hnet : w.net = resp :: netRest) :
    runDispatch c w d =
      ⟨[Dispatch.requestOf c d], c, ⟨rest, netRest⟩,
        if raiseForStatus resp then
          Except.error
            (PyErr.httpError (Dispatch.methodOf d) (Dispatch.resolvedUrl c.base_url d) resp)
        else Except.ok resp⟩ := by
  have hnet2 : (⟨rest, w.net⟩ : World).net = resp :: netRest := hnet
  cases d
  all_goals
    simp only [runDispatch, _get, _put, _patch, _post, _delete, _head, if_true]
  all_goals
    rw [refresh_fresh c w exp n rest hexp hclock hlt]
  all_goals
    simp only []
  all_goals
    rw [send_raw_eq c ⟨rest, w.net⟩ _ _ _ _ _ _ resp netRest hnet2]
  all_goals
    by_cases hr : raiseForStatus resp
  all_goals
    simp [hr, Dispatch.requestOf, Dispatch.methodOf, Dispatch.resolvedUrl]

/-- The URL of the request a dispatched call sends is the resolved
URL. -/
theorem requestOf_url (c : ClientState) (d : Dispatch) :
    (Dispatch.requestOf c d).url = Dispatch.resolvedUrl c.base_url d := by
  cases d <;> rfl

/-- A refresh does not change the base URL. -/
theorem refreshedState_base (c : ClientState) (tok : String) (ein n2 : Int) :
    (refreshedState c tok ein n2).base_url = c.base_url := rfl

/-- A refresh does not change the tenant. -/
theorem refreshedState_tenant (c : ClientState) (tok : String) (ein n2 : Int) :
    (refreshedState c tok ein n2).tenant_id = c.tenant_id := rfl

/-- The expiry recorded by a refresh. -/
theorem refreshedState_exp (c : ClientState) (tok : String) (ein n2 : Int) :
    (refreshedState c tok ein n2).oauth2_token_time_expiration
      = some (n2 + (ein - 45) * 1000000) := rfl

/-- Characterization of a dispatched verb call once the recorded expiry
has been reached: first the token POST, then the call's own request
from the refreshed state. -/
theorem runDispatch_due (c : ClientState) (w : World) (exp n n2 : Int) (rest : List Int)
    (tokResp resp : Response) (netRest : List Response) (tok : String) (ein : Int)
    (d : Dispatch)
    (hexp : c.oauth2_token_time_expiration = some exp)
    (hclock : w.clock = n :: n2 :: rest)
    (hge : exp - n ≤ 0)
    (hnet : w.net = tokResp :: resp :: netRest)
    (hok : raiseForStatus tokResp = false)
    (htok : tokResp.json_access_token = some tok)
    (hein : tokResp.json_expires_in = some ein) :
    runDispatch c w d =
      ⟨[tokenPostRequest c, Dispatch.requestOf (refreshedState c tok ein n2) d],
        refreshedState c tok ein n2, ⟨rest, netRest⟩,
        if raiseForStatus resp then
          Except.error
            (PyErr.httpError (Dispatch.methodOf d) (Dispatch.resolvedUrl c.base_url d) resp)
        else Except.ok resp⟩ := by
  have hrw := refresh_due_some_success c w exp n n2 rest tokResp (resp :: netRest) tok ein
    hexp hclock hge hnet hok htok hein
  have hnet2 : (⟨rest, resp :: netRest⟩ : World).net = resp :: netRest := rfl
  cases d
  all_goals
    simp only [runDispatch, _get, _put, _patch, _post, _delete, _head, if_true]
  all_goals
    rw [hrw]
  all_goals
    simp only []
  all_goals
    rw [send_raw_eq (refreshedState c tok ein n2) ⟨rest, resp :: netRest⟩ _ _ _ _ _ _
      resp netRest hnet2]
  all_goals
    by_cases hr : raiseForStatus resp
  all_goals
    simp [hr, Dispatch.requestOf, Dispatch.methodOf, Dispatch.resolvedUrl, refreshedState_base]

/-- Characterization of the constructor on a successful first token
request. -/
theorem init_success (account dns tenant cid secret : String) (w : World)
    (resp : Response) (netRest : List Response) (tok : String) (ein n2 : Int)
    (clockRest : List Int)
    (hnet : w.net = resp :: netRest)
    (hclock : w.clock = n2 :: clockRest)
    (hok : raiseForStatus resp = false)
    (htok : resp.json_access_token = some tok)
    (hein : resp.json_expires_in = some ein) :
    OAuth2AdlsApiClient_init account dns tenant cid secret w =
      ⟨[tokenPostRequest (initClientState account dns tenant cid secret)],
        refreshedState (initClientState account dns tenant cid secret) tok ein n2,
        ⟨clockRest, netRest⟩,
        Except.ok
          (refreshedState (initClientState account dns tenant cid secret) tok ein n2,
           { api_client := refreshedState (initClientState account dns tenant cid secret) tok ein n2,
             response := some resp })⟩ := by
  have h := refresh_due_none_success (initClientState account dns tenant cid secret) w n2
    clockRest resp netRest tok ein rfl hclock hnet hok htok hein
  unfold OAuth2AdlsApiClient_init
  simp only []
  unfold initClientState at h ⊢
  rw [h]

/-- Running a sequence of dispatched calls entirely inside the validity
window of the recorded token leaves the client state untouched,
consumes one clock value and one response per call, succeeds, and logs
exactly the calls' own requests. -/
theorem runTrace_fresh (ops : List Dispatch) (c : ClientState) (exp : Int)
    (clockA clockB : List Int) (netA netB : List Response)
    (hexp : c.oauth2_token_time_expiration = some exp)
    (hlenC : clockA.length = ops.length)
    (hlenN : netA.length = ops.length)
    (hcl : ∀ x ∈ clockA, x < exp)
    (hnetOk : ∀ r ∈ netA, raiseForStatus r = false) :
    runTrace c ⟨clockA ++ clockB, netA ++ netB⟩ ops =
      ⟨ops.map (Dispatch.requestOf c), c, ⟨clockB, netB⟩, Except.ok ()⟩ := by
  induction ops generalizing clockA netA with
  | nil =>
    have h1 : clockA = [] := List.length_eq_zero.mp (by simpa using hlenC)
    have h2 : netA = [] := List.length_eq_zero.mp (by simpa using hlenN)
    subst h1; subst h2
    simp [runTrace]
  | cons d ds ih =>
    rcases clockA with _ | ⟨x, clockA'⟩
    · simp at hlenC
    rcases netA with _ | ⟨r, netA'⟩
    · simp at hlenN
    have hx : 0 < exp - x := by
      have := hcl x (by simp)
      omega
    have hrd := runDispatch_fresh c ⟨(x :: clockA') ++ clockB, (r :: netA') ++ netB⟩ exp x
      (clockA' ++ clockB) r (netA' ++ netB) d hexp (by simp) hx (by simp)
    simp only [runTrace]
    rw [hrd]
    have hr : raiseForStatus r = false := hnetOk r (by simp)
    simp only [hr, if_false]
    rw [ih clockA' netA' (by simpa using hlenC) (by simpa using hlenN)
      (fun y hy => hcl y (by simp [hy])) (fun s hs => hnetOk s (by simp [hs]))]
    simp [List.map]

/-- C1 (amended): calling _refresh_oauth2_token performs exactly one
POST to the token endpoint with the client-credentials body when no
expiry is recorded or the recorded expiry minus the current time is
zero or negative; otherwise it is a no-op that issues no request and
leaves the client state (session headers and expiry) unchanged,
returning None. -/
theorem C1_refresh_condition (c : ClientState) (w : World) (n : Int) (rest : List Int)
    (hclock : w.clock = n :: rest) :
    ((c.oauth2_token_time_expiration = none ∨
        (∃ exp, c.oauth2_token_time_expiration = some exp ∧ exp - n ≤ 0)) →
      (refresh_oauth2_token c w).log = [tokenPostRequest c]) ∧
    (∀ exp, c.oauth2_token_time_expiration = some exp → 0 < exp - n →
      refresh_oauth2_token c w = ⟨[], c, ⟨rest, w.net⟩, Except.ok none⟩) := by
  constructor
  · intro h
    apply refresh_due_log c w n rest hclock
    rcases h with h | ⟨exp, hexp, hle⟩
    · simp [tokenDue, h]
    · simp [tokenDue, hexp]
      omega
  · intro exp hexp hlt
    exact refresh_fresh c w exp n rest hexp hclock hlt

/-- Witness for C1 at concrete inputs: a refresh with the expiry in the
past issues the token POST, and one with the expiry in the future is
the identity no-op. -/
theorem C1_refresh_condition_witness :
    (refresh_oauth2_token sampleClient ⟨[2000000], [token200]⟩).log
        = [tokenPostRequest sampleClient] ∧
    refresh_oauth2_token sampleClient ⟨[0], [token200]⟩
        = ⟨[], sampleClient, ⟨[], [token200]⟩, Except.ok none⟩ :=
  ⟨(C1_refresh_condition sampleClient ⟨[2000000], [token200]⟩ 2000000 [] rfl).1
      (Or.inr ⟨1000000, rfl, by decide⟩),
   (C1_refresh_condition sampleClient ⟨[0], [token200]⟩ 0 [] rfl).2 1000000 rfl (by decide)⟩

/-- C1 counterexample: with the recorded expiry exactly equal to the
current time the difference is zero, not negative, yet the code
refreshes (a zero timedelta is falsy), so the original claim's no-op
branch is wrong at this input. -/
theorem C1_counterexample :
    sampleClient.oauth2_token_time_expiration = some 1000000 ∧
    (refresh_oauth2_token sampleClient ⟨[1000000], [token200]⟩).log ≠ [] := by
  constructor
  · rfl
  · decide


/-- C2: a successful token refresh (2xx with access_token and
expires_in) sets the session Authorization header to Bearer followed by
the access token and records the expiry as the current time plus
expires_in minus 45 seconds; the current time is the clock value read
after the response (the first clock value when no expiry was recorded,
the second otherwise, since the expiry check itself reads the clock). -/
theorem C2_refresh_success (c : ClientState) (w : World) (resp : Response)
    (netRest : List Response) (tok : String) (ein n1 n2 : Int) (clockRest : List Int)
    (hnet : w.net = resp :: netRest)
    (hclock : w.clock = n1 :: n2 :: clockRest)
    (h2xx : 200 ≤ resp.status_code ∧ resp.status_code < 300)
    (htok : resp.json_access_token = some tok)
    (hein : resp.json_expires_in = some ein)
    (hdue : tokenDue c n1 = true) :
    dictGet (refresh_oauth2_token c w).state.session_headers "Authorization"
        = some ("Bearer " ++ tok) ∧
    (refresh_oauth2_token c w).state.oauth2_token_time_expiration
        = some ((match c.oauth2_token_time_expiration with
                 | none => n1
                 | some _ => n2) + (ein - 45) * 1000000) ∧
    (refresh_oauth2_token c w).res = Except.ok (some resp) := by
  have hok : raiseForStatus resp = false := by
    simp only [raiseForStatus]
    simp only [Bool.and_eq_false_iff, decide_eq_false_iff_not]
    omega
  rcases hexp : c.oauth2_token_time_expiration with _ | exp
  · rw [refresh_due_none_success c w n1 (n2 :: clockRest) resp netRest tok ein hexp hclock
      hnet hok htok hein]
    refine ⟨?_, ?_, rfl⟩
    · exact dictGet_dictSet _ _ _
    · rfl
  · have hle : exp - n1 ≤ 0 := by
      have := hdue
      simp [tokenDue, hexp] at this
      omega
    rw [refresh_due_some_success c w exp n1 n2 clockRest resp netRest tok ein hexp hclock
      hle hnet hok htok hein]
    refine ⟨?_, ?_, rfl⟩
    · exact dictGet_dictSet _ _ _
    · rfl

/-- Witness for C2 at concrete inputs. -/
theorem C2_refresh_success_witness :
    dictGet (refresh_oauth2_token sampleClient
        ⟨[2000000, 2500000], [token200]⟩).state.session_headers "Authorization"
      = some ("Bearer " ++ "newtok") ∧
    (refresh_oauth2_token sampleClient
        ⟨[2000000, 2500000], [token200]⟩).state.oauth2_token_time_expiration
      = some (2500000 + (3600 - 45) * 1000000) ∧
    (refresh_oauth2_token sampleClient ⟨[2000000, 2500000], [token200]⟩).res
      = Except.ok (some token200) := by
  have h := C2_refresh_success sampleClient ⟨[2000000, 2500000], [token200]⟩ token200 []
    "newtok" 3600 2000000 2500000 [] rfl rfl (by decide) rfl rfl (by decide)
  exact h


/-- C9 (amended): if the token endpoint returns a 4xx/5xx response
during a refresh, the refresh raises the HTTPError before performing
any state mutation: the resulting client state (session headers and
recorded expiry) is exactly the state before the attempt. -/
theorem C9_refresh_failure_atomic (c : ClientState) (w : World) (n : Int) (rest : List Int)
    (resp : Response) (netRest : List Response)
    (hclock : w.clock = n :: rest)
    (hdue : tokenDue c n = true)
    (hnet : w.net = resp :: netRest)
    (hfail : 400 ≤ resp.status_code ∧ resp.status_code < 600) :
    (refresh_oauth2_token c w).res =
      Except.error (PyErr.httpError Method.post (AUTH2_TOKEN_URL c.tenant_id) resp) ∧
    (refresh_oauth2_token c w).state = c := by
  refine refresh_due_error c w n rest resp netRest hclock hdue hnet ?_
  simp only [raiseForStatus, Bool.and_eq_true, decide_eq_true_eq]
  omega

/-- Witness for C9 at concrete inputs. -/
theorem C9_refresh_failure_atomic_witness :
    (refresh_oauth2_token sampleClient ⟨[2000000], [resp404]⟩).res =
      Except.error (PyErr.httpError Method.post (AUTH2_TOKEN_URL sampleClient.tenant_id)
        resp404) ∧
    (refresh_oauth2_token sampleClient ⟨[2000000], [resp404]⟩).state = sampleClient :=
  C9_refresh_failure_atomic sampleClient ⟨[2000000], [resp404]⟩ 2000000 [] resp404 []
    rfl (by decide) rfl (by decide)

/-- C9 counterexample: a 300 response is not 2xx, yet when it carries
the token fields the refresh does not raise at all (raise_for_status
only raises for 4xx/5xx): it completes and mutates the session headers
and the expiry, contradicting the claim for non-2xx responses outside
the 4xx/5xx ranges. -/
theorem C9_counterexample :
    resp300.status_code = 300 ∧
    (refresh_oauth2_token sampleClient ⟨[2000000, 2500000], [resp300]⟩).res
        = Except.ok (some resp300) ∧
    (refresh_oauth2_token sampleClient ⟨[2000000, 2500000], [resp300]⟩).state
        ≠ sampleClient := by
  refine ⟨rfl, ?_, ?_⟩
  · decide
  · decide

/-- C4: a dispatched verb call whose response is 4xx/5xx raises an
HTTPError carrying the method, the resolved URL and the response,
after issuing exactly the one request (no retry), and the error is
returned unswallowed; a 2xx response raises nothing and the response
is returned.  The hypothesis that a valid token is recorded isolates
the dispatch itself from the preceding refresh. -/
theorem C4_dispatch_errors (c : ClientState) (w : World) (exp n : Int) (rest : List Int)
    (resp : Response) (netRest : List Response)
    (u e : Option String) (p : List (String × PyVal)) (dd : Option String)
    (hArg : Option Headers)
    (hexp : c.oauth2_token_time_expiration = some exp)
    (hclock : w.clock = n :: rest)
    (hlt : 0 < exp - n)
    (hnet : w.net = resp :: netRest) :
    ((400 ≤ resp.status_code ∧ resp.status_code < 600) →
      _get c w u e p hArg =
        ⟨[Dispatch.requestOf c (Dispatch.get u e p hArg)], c, ⟨rest, netRest⟩,
          Except.error (PyErr.httpError Method.get (resolveUrl c.base_url u e) resp)⟩ ∧
      _put c w u e p dd hArg =
        ⟨[Dispatch.requestOf c (Dispatch.put u e p dd hArg)], c, ⟨rest, netRest⟩,
          Except.error (PyErr.httpError Method.put (resolveUrl c.base_url u e) resp)⟩ ∧
      _patch c w u e p dd hArg =
        ⟨[Dispatch.requestOf c (Dispatch.patch u e p dd hArg)], c, ⟨rest, netRest⟩,
          Except.error (PyErr.httpError Method.patch (resolveUrl c.base_url u e) resp)⟩ ∧
      _post c w u e p dd hArg true =
        ⟨[Dispatch.requestOf c (Dispatch.post u e p dd hArg)], c, ⟨rest, netRest⟩,
          Except.error (PyErr.httpError Method.post (resolveUrl c.base_url u e) resp)⟩ ∧
      _delete c w u e p hArg =
        ⟨[Dispatch.requestOf c (Dispatch.delete u e p hArg)], c, ⟨rest, netRest⟩,
          Except.error (PyErr.httpError Method.delete (resolveUrl c.base_url u e) resp)⟩ ∧
      _head c w u e p hArg =
        ⟨[Dispatch.requestOf c (Dispatch.head u e p hArg)], c, ⟨rest, netRest⟩,
          Except.error (PyErr.httpError Method.head (resolveUrl c.base_url u e) resp)⟩) ∧
    ((200 ≤ resp.status_code ∧ resp.status_code < 300) →
      _get c w u e p hArg =
        ⟨[Dispatch.requestOf c (Dispatch.get u e p hArg)], c, ⟨rest, netRest⟩,
          Except.ok resp⟩ ∧
      _put c w u e p dd hArg =
        ⟨[Dispatch.requestOf c (Dispatch.put u e p dd hArg)], c, ⟨rest, netRest⟩,
          Except.ok resp⟩ ∧
      _patch c w u e p dd hArg =
        ⟨[Dispatch.requestOf c (Dispatch.patch u e p dd hArg)], c, ⟨rest, netRest⟩,
          Except.ok resp⟩ ∧
      _post c w u e p dd hArg true =
        ⟨[Dispatch.requestOf c (Dispatch.post u e p dd hArg)], c, ⟨rest, netRest⟩,
          Except.ok resp⟩ ∧
      _delete c w u e p hArg =
        ⟨[Dispatch.requestOf c (Dispatch.delete u e p hArg)], c, ⟨rest, netRest⟩,
          Except.ok resp⟩ ∧
      _head c w u e p hArg =
        ⟨[Dispatch.requestOf c (Dispatch.head u e p hArg)], c, ⟨rest, netRest⟩,
          Except.ok resp⟩) := by
  have hG := runDispatch_fresh c w exp n rest resp netRest (Dispatch.get u e p hArg)
    hexp hclock hlt hnet
  have hU := runDispatch_fresh c w exp n rest resp netRest (Dispatch.put u e p dd hArg)
    hexp hclock hlt hnet
  have hA := runDispatch_fresh c w exp n rest resp netRest (Dispatch.patch u e p dd hArg)
    hexp hclock hlt hnet
  have hO := runDispatch_fresh c w exp n rest resp netRest (Dispatch.post u e p dd hArg)
    hexp hclock hlt hnet
  have hD := runDispatch_fresh c w exp n rest resp netRest (Dispatch.delete u e p hArg)
    hexp hclock hlt hnet
  have hH := runDispatch_fresh c w exp n rest resp netRest (Dispatch.head u e p hArg)
    hexp hclock hlt hnet
  simp only [runDispatch] at hG hU hA hO hD hH
  constructor
  · intro hf
    have hr : raiseForStatus resp = true := by
      simp only [raiseForStatus, Bool.and_eq_true, decide_eq_true_eq]
      omega
    rw [hG, hU, hA, hO, hD, hH]
    simp [hr, Dispatch.methodOf, Dispatch.resolvedUrl]
  · intro hs
    have hr : raiseForStatus resp = false := by
      simp only [raiseForStatus, Bool.and_eq_false_iff, decide_eq_false_iff_not]
      omega
    rw [hG, hU, hA, hO, hD, hH]
    simp [hr]


/-- Witness for C4: a 404 GET raises with the method, URL and response
and exactly one logged request; a 201 GET returns the response. -/
theorem C4_dispatch_errors_witness :
    _get sampleClient ⟨[0], [resp404]⟩ none (some "fs") [] none =
      ⟨[Dispatch.requestOf sampleClient (Dispatch.get none (some "fs") [] none)],
        sampleClient, ⟨[], []⟩,
        Except.error (PyErr.httpError Method.get
          (resolveUrl sampleClient.base_url none (some "fs")) resp404)⟩ ∧
    _get sampleClient ⟨[0], [resp201]⟩ none (some "fs") [] none =
      ⟨[Dispatch.requestOf sampleClient (Dispatch.get none (some "fs") [] none)],
        sampleClient, ⟨[], []⟩, Except.ok resp201⟩ :=
  ⟨((C4_dispatch_errors sampleClient ⟨[0], [resp404]⟩ 1000000 0 [] resp404 []
      none (some "fs") [] none none rfl rfl (by decide) rfl).1 (by decide)).1,
   ((C4_dispatch_errors sampleClient ⟨[0], [resp201]⟩ 1000000 0 [] resp201 []
      none (some "fs") [] none none rfl rfl (by decide) rfl).2 (by decide)).1⟩

/-- C8 (amended): given a non-empty endpoint and no explicit URL, every
verb operation resolves its final URL to join_url_parts of the base URL
and the endpoint (each segment stripped of leading and trailing slashes
and joined with a single slash); given the empty-string endpoint, the
join is skipped (the empty string is falsy) and the final URL is the
base URL itself. -/
theorem C8_endpoint_resolution (c : ClientState) (w : World) (exp n : Int) (rest : List Int)
    (resp : Response) (netRest : List Response) (e : String)
    (p : List (String × PyVal)) (dd : Option String) (hArg : Option Headers)
    (hexp : c.oauth2_token_time_expiration = some exp)
    (hclock : w.clock = n :: rest)
    (hlt : 0 < exp - n)
    (hnet : w.net = resp :: netRest)
    (he : e ≠ "") :
    ((_get c w none (some e) p hArg).log.map (fun r => r.url)
        = [join_url_parts [c.base_url, e]]) ∧
    ((_put c w none (some e) p dd hArg).log.map (fun r => r.url)
        = [join_url_parts [c.base_url, e]]) ∧
    ((_patch c w none (some e) p dd hArg).log.map (fun r => r.url)
        = [join_url_parts [c.base_url, e]]) ∧
    ((_post c w none (some e) p dd hArg true).log.map (fun r => r.url)
        = [join_url_parts [c.base_url, e]]) ∧
    ((_delete c w none (some e) p hArg).log.map (fun r => r.url)
        = [join_url_parts [c.base_url, e]]) ∧
    ((_head c w none (some e) p hArg).log.map (fun r => r.url)
        = [join_url_parts [c.base_url, e]]) ∧
    ((_get c w none (some "") p hArg).log.map (fun r => r.url) = [c.base_url]) ∧
    ((_put c w none (some "") p dd hArg).log.map (fun r => r.url) = [c.base_url]) ∧
    ((_patch c w none (some "") p dd hArg).log.map (fun r => r.url) = [c.base_url]) ∧
    ((_post c w none (some "") p dd hArg true).log.map (fun r => r.url) = [c.base_url]) ∧
    ((_delete c w none (some "") p hArg).log.map (fun r => r.url) = [c.base_url]) ∧
    ((_head c w none (some "") p hArg).log.map (fun r => r.url) = [c.base_url]) := by
  have key : ∀ d : Dispatch,
      (runDispatch c w d).log.map (fun r => r.url) = [Dispatch.resolvedUrl c.base_url d] := by
    intro d
    rw [runDispatch_fresh c w exp n rest resp netRest d hexp hclock hlt hnet]
    by_cases hr : raiseForStatus resp
    · simp [hr, requestOf_url]
    · simp [hr, requestOf_url]
  have hKg := key (Dispatch.get none (some e) p hArg)
  have hKu := key (Dispatch.put none (some e) p dd hArg)
  have hKa := key (Dispatch.patch none (some e) p dd hArg)
  have hKo := key (Dispatch.post none (some e) p dd hArg)
  have hKd := key (Dispatch.delete none (some e) p hArg)
  have hKh := key (Dispatch.head none (some e) p hArg)
  have hKg2 := key (Dispatch.get none (some "") p hArg)
  have hKu2 := key (Dispatch.put none (some "") p dd hArg)
  have hKa2 := key (Dispatch.patch none (some "") p dd hArg)
  have hKo2 := key (Dispatch.post none (some "") p dd hArg)
  have hKd2 := key (Dispatch.delete none (some "") p hArg)
  have hKh2 := key (Dispatch.head none (some "") p hArg)
  simp only [runDispatch, Dispatch.resolvedUrl, resolveUrl, he, if_false, if_true,
    reduceIte] at hKg hKu hKa hKo hKd hKh hKg2 hKu2 hKa2 hKo2 hKd2 hKh2
  exact ⟨hKg, hKu, hKa, hKo, hKd, hKh, hKg2, hKu2, hKa2, hKo2, hKd2, hKh2⟩


/-- Witness for C8: a GET with endpoint fs resolves to the joined URL. -/
theorem C8_endpoint_resolution_witness :
    (_get sampleClient ⟨[0], [resp200]⟩ none (some "/fs/") [] none).log.map (fun r => r.url)
      = [join_url_parts [sampleClient.base_url, "/fs/"]] :=
  (C8_endpoint_resolution sampleClient ⟨[0], [resp200]⟩ 1000000 0 [] resp200 [] "/fs/"
    [] none none rfl rfl (by decide) rfl (by decide)).1

/-- C8 counterexample: with the empty endpoint the code skips the join
(empty string is falsy) and uses the bare base URL, whereas
join_url_parts of base URL and empty string appends a trailing slash,
so the original claim fails at the empty endpoint. -/
theorem C8_counterexample :
    (_get sampleClient ⟨[0], [resp200]⟩ none (some "") [] none).log.map (fun r => r.url)
        = ["https://acct.dfs.core.windows.net"] ∧
    join_url_parts ["https://acct.dfs.core.windows.net", ""]
        ≠ "https://acct.dfs.core.windows.net" := by
  constructor
  · decide
  · decide

/-- A wrapped verb call under a valid token and a non-raising response
returns a Command pairing the (unchanged) client with the response. -/
theorem toCommandStep_fresh (c : ClientState) (w : World) (exp n : Int) (rest : List Int)
    (resp : Response) (netRest : List Response) (d : Dispatch)
    (hexp : c.oauth2_token_time_expiration = some exp)
    (hclock : w.clock = n :: rest)
    (hlt : 0 < exp - n)
    (hnet : w.net = resp :: netRest)
    (hok : raiseForStatus resp = false) :
    (toCommandStep (runDispatch c w d)).res
      = Except.ok (OpResult.command { api_client := c, response := some resp }) := by
  rw [runDispatch_fresh c w exp n rest resp netRest d hexp hclock hlt hnet]
  simp [toCommandStep, hok]


/-- C3 (amended): under a valid token and a non-raising response,
eleven of the twelve public wrapper operations return a Command pairing
the issuing client with the raw response; list_filesystem instead
returns the parsed JSON body of the response (the empty dict when the
body is empty). -/
theorem C3_op_results (c : ClientState) (w : World) (exp n : Int) (rest : List Int)
    (resp : Response) (netRest : List Response)
    (fsid path : String) (recursive : Bool) (dd : Option String)
    (hArg : Option Headers) (kwargs : List (String × PyVal))
    (hexp : c.oauth2_token_time_expiration = some exp)
    (hclock : w.clock = n :: rest)
    (hlt : 0 < exp - n)
    (hnet : w.net = resp :: netRest)
    (hok : resp.status_code < 400) :
    (create_filesystem c w fsid hArg kwargs).res
        = Except.ok (OpResult.command { api_client := c, response := some resp }) ∧
    (delete_filesystem c w fsid hArg kwargs).res
        = Except.ok (OpResult.command { api_client := c, response := some resp }) ∧
    (get_filesystem_properties c w fsid hArg kwargs).res
        = Except.ok (OpResult.command { api_client := c, response := some resp }) ∧
    (set_filesystem_properties c w fsid hArg kwargs).res
        = Except.ok (OpResult.command { api_client := c, response := some resp }) ∧
    (create_path c w fsid path hArg kwargs).res
        = Except.ok (OpResult.command { api_client := c, response := some resp }) ∧
    (delete_path c w fsid path recursive hArg kwargs).res
        = Except.ok (OpResult.command { api_client := c, response := some resp }) ∧
    (list_path c w fsid recursive hArg kwargs).res
        = Except.ok (OpResult.command { api_client := c, response := some resp }) ∧
    (read_path c w fsid path hArg kwargs).res
        = Except.ok (OpResult.command { api_client := c, response := some resp }) ∧
    (update_path c w fsid path dd hArg kwargs).res
        = Except.ok (OpResult.command { api_client := c, response := some resp }) ∧
    (get_path_properties c w fsid path hArg kwargs).res
        = Except.ok (OpResult.command { api_client := c, response := some resp }) ∧
    (lease_path c w fsid path hArg kwargs).res
        = Except.ok (OpResult.command { api_client := c, response := some resp }) ∧
    (list_filesystem c w hArg kwargs).res
        = Except.ok (OpResult.jsonDict (if resp.content = "" then none else some resp)) := by
  have hro : raiseForStatus resp = false := by
    simp only [raiseForStatus, Bool.and_eq_false_iff, decide_eq_false_iff_not]
    omega
  have hcmd := fun d => toCommandStep_fresh c w exp n rest resp netRest d
    hexp hclock hlt hnet hro
  have hg : ∀ p hA, (_get c w none none p hA) = runDispatch c w (Dispatch.get none none p hA) :=
    fun p hA => rfl
  refine ⟨hcmd (Dispatch.put none (some fsid) (get_params { entries := [selfLocal, ("filesystem_identifier", some (PyVal.str fsid)), ("headers", headersLocal hArg), ("resource", some (PyVal.str "filesystem"))], kwargs := kwargs } ["self", "filesystem_identifier", "headers"]) none hArg),
    hcmd (Dispatch.delete none (some fsid) (get_params { entries := [selfLocal, ("filesystem_identifier", some (PyVal.str fsid)), ("headers", headersLocal hArg), ("resource", some (PyVal.str "filesystem"))], kwargs := kwargs } ["self", "filesystem_identifier", "headers"]) hArg),
    hcmd (Dispatch.head none (some fsid) (get_params { entries := [selfLocal, ("filesystem_identifier", some (PyVal.str fsid)), ("headers", headersLocal hArg), ("resource", some (PyVal.str "filesystem"))], kwargs := kwargs } ["self", "filesystem_identifier", "headers"]) hArg),
    hcmd (Dispatch.patch none (some fsid) (get_params { entries := [selfLocal, ("filesystem_identifier", some (PyVal.str fsid)), ("headers", headersLocal hArg), ("resource", some (PyVal.str "filesystem"))], kwargs := kwargs } ["self", "filesystem_identifier", "headers"]) none hArg),
    hcmd (Dispatch.put none (some (fsid ++ "/" ++ path)) (get_params { entries := [selfLocal, ("filesystem_identifier", some (PyVal.str fsid)), ("path", some (PyVal.str path)), ("headers", headersLocal hArg)], kwargs := kwargs } ["self", "filesystem_identifier", "path", "headers"]) none hArg),
    hcmd (Dispatch.delete none (some (fsid ++ "/" ++ path)) (get_params { entries := [selfLocal, ("filesystem_identifier", some (PyVal.str fsid)), ("path", some (PyVal.str path)), ("recursive", some (PyVal.bool recursive)), ("headers", headersLocal hArg)], kwargs := kwargs } ["self", "filesystem_identifier", "path", "headers"]) hArg),
    hcmd (Dispatch.get none (some fsid) (get_params { entries := [selfLocal, ("filesystem_identifier", some (PyVal.str fsid)), ("recursive", some (PyVal.bool recursive)), ("headers", headersLocal hArg), ("resource", some (PyVal.str "filesystem"))], kwargs := kwargs } ["self", "filesystem_identifier", "headers"]) hArg),
    hcmd (Dispatch.get none (some (fsid ++ "/" ++ path)) (get_params { entries := [selfLocal, ("filesystem_identifier", some (PyVal.str fsid)), ("path", some (PyVal.str path)), ("headers", headersLocal hArg)], kwargs := kwargs } ["self", "filesystem_identifier", "path", "headers"]) hArg),
    hcmd (Dispatch.patch none (some (fsid ++ "/" ++ path)) (get_params { entries := [selfLocal, ("filesystem_identifier", some (PyVal.str fsid)), ("path", some (PyVal.str path)), ("data", dd.map PyVal.str), ("headers", headersLocal hArg)], kwargs := kwargs } ["self", "filesystem_identifier", "pat", "data", "headers"]) dd hArg),
    hcmd (Dispatch.head none (some (fsid ++ "/" ++ path)) (get_params { entries := [selfLocal, ("filesystem_identifier", some (PyVal.str fsid)), ("path", some (PyVal.str path)), ("headers", headersLocal hArg)], kwargs := kwargs } ["self", "filesystem_identifier", "path", "headers"]) hArg),
    hcmd (Dispatch.post none (some (fsid ++ "/" ++ path)) (get_params { entries := [selfLocal, ("filesystem_identifier", some (PyVal.str fsid)), ("path", some (PyVal.str path)), ("headers", headersLocal hArg)], kwargs := kwargs } ["self", "filesystem_identifier", "path", "headers"]) none hArg), ?_⟩
  unfold list_filesystem
  simp only []
  rw [hg]
  rw [runDispatch_fresh c w exp n rest resp netRest _ hexp hclock hlt hnet]
  simp [hro]


/-- Witness for C3 at concrete inputs: create_filesystem yields a
Command, list_filesystem yields the parsed body. -/
theorem C3_op_results_witness :
    (create_filesystem sampleClient ⟨[0], [resp201]⟩ "fs" none []).res
        = Except.ok (OpResult.command { api_client := sampleClient, response := some resp201 }) ∧
    (list_filesystem sampleClient ⟨[0], [resp200]⟩ none []).res
        = Except.ok (OpResult.jsonDict (some resp200)) := by
  refine ⟨(C3_op_results sampleClient ⟨[0], [resp201]⟩ 1000000 0 [] resp201 [] "fs" "p"
    true none none [] rfl rfl (by decide) rfl (by decide)).1, ?_⟩
  have h := (C3_op_results sampleClient ⟨[0], [resp200]⟩ 1000000 0 [] resp200 [] "fs" "p"
    true none none [] rfl rfl (by decide) rfl (by decide)).2.2.2.2.2.2.2.2.2.2.2
  simpa using h

/-- C3 counterexample: list_filesystem is a public operation that does
not raise here, yet its result is the parsed JSON body and not a
Command. -/
theorem C3_counterexample :
    (list_filesystem sampleClient ⟨[0], [resp200]⟩ none []).res
        = Except.ok (OpResult.jsonDict (some resp200)) ∧
    OpResult.isCommand (OpResult.jsonDict (some resp200)) = false := by
  constructor
  · decide
  · rfl

/-- C6: write issues exactly two PATCH update calls in order: an append
at the given query position carrying the contents as body with
Content-Length equal to the length of the contents, then a flush with
no body and Content-Length 0 at query position position plus that
length, and it returns the Command of the flush call. -/
theorem C6_write_append_flush (f : FsState) (w : World)
    (path contents content_type : String) (position : Int)
    (exp n1 n2 : Int) (rest : List Int) (r1 r2 : Response) (netRest : List Response)
    (hexp : f.api_client.oauth2_token_time_expiration = some exp)
    (hclock : w.clock = n1 :: n2 :: rest)
    (hf1 : 0 < exp - n1) (hf2 : 0 < exp - n2)
    (hnet : w.net = r1 :: r2 :: netRest)
    (hok1 : r1.status_code < 400) (hok2 : r2.status_code < 400) :
    write f w path contents content_type position =
      ⟨[{ method := Method.patch,
          url := resolveUrl f.api_client.base_url none (some (f.filesystem_id ++ "/" ++ path)),
          params := [("path", PyVal.str path), ("action", PyVal.str "append"),
                     ("position", PyVal.int position)],
          data := some contents,
          headers := some (dictUpdate
            [("Content-Length", toString (Int.ofNat contents.length))] f.headers),
          session_headers := f.api_client.session_headers },
        { method := Method.patch,
          url := resolveUrl f.api_client.base_url none (some (f.filesystem_id ++ "/" ++ path)),
          params := [("path", PyVal.str path), ("action", PyVal.str "flush"),
                     ("position", PyVal.int (position + Int.ofNat contents.length))],
          data := none,
          headers := some (dictUpdate
            [("Content-Length", "0"), ("x-ms-content-type", content_type)] f.headers),
          session_headers := f.api_client.session_headers }],
        f.api_client, ⟨rest, netRest⟩,
        Except.ok (OpResult.command { api_client := f.api_client, response := some r2 })⟩ := by
  have hro1 : raiseForStatus r1 = false := by
    simp only [raiseForStatus, Bool.and_eq_false_iff, decide_eq_false_iff_not]
    omega
  have hro2 : raiseForStatus r2 = false := by
    simp only [raiseForStatus, Bool.and_eq_false_iff, decide_eq_false_iff_not]
    omega
  have hpatch1 : ∀ (P : List (String × PyVal)) (ddx : Option String) (hA : Option Headers),
      _patch f.api_client w none (some (f.filesystem_id ++ "/" ++ path)) P ddx hA =
        ⟨[Dispatch.requestOf f.api_client
            (Dispatch.patch none (some (f.filesystem_id ++ "/" ++ path)) P ddx hA)],
          f.api_client, ⟨n2 :: rest, r2 :: netRest⟩, Except.ok r1⟩ := by
    intro P ddx hA
    have h := runDispatch_fresh f.api_client w exp n1 (n2 :: rest) r1 (r2 :: netRest)
      (Dispatch.patch none (some (f.filesystem_id ++ "/" ++ path)) P ddx hA)
      hexp hclock hf1 hnet
    simp only [runDispatch] at h
    rw [h]
    simp [hro1]
  have hpatch2 : ∀ (P : List (String × PyVal)) (ddx : Option String) (hA : Option Headers),
      _patch f.api_client ⟨n2 :: rest, r2 :: netRest⟩ none
          (some (f.filesystem_id ++ "/" ++ path)) P ddx hA =
        ⟨[Dispatch.requestOf f.api_client
            (Dispatch.patch none (some (f.filesystem_id ++ "/" ++ path)) P ddx hA)],
          f.api_client, ⟨rest, netRest⟩, Except.ok r2⟩ := by
    intro P ddx hA
    have h := runDispatch_fresh f.api_client ⟨n2 :: rest, r2 :: netRest⟩ exp n2 rest r2 netRest
      (Dispatch.patch none (some (f.filesystem_id ++ "/" ++ path)) P ddx hA)
      hexp rfl hf2 rfl
    simp only [runDispatch] at h
    rw [h]
    simp [hro2]
  unfold write
  simp only []
  unfold update_path
  simp only []
  rw [hpatch1]
  simp only [toCommandStep]
  rw [hpatch2]
  rfl


/-- Witness for C6 at concrete inputs. -/
theorem C6_write_append_flush_witness :
    write fsSample ⟨[0, 1], [resp201, resp200]⟩ "d/f.txt" "AB" "text/plain" 0 =
      ⟨[{ method := Method.patch,
          url := resolveUrl fsSample.api_client.base_url none
            (some (fsSample.filesystem_id ++ "/" ++ "d/f.txt")),
          params := [("path", PyVal.str "d/f.txt"), ("action", PyVal.str "append"),
                     ("position", PyVal.int 0)],
          data := some "AB",
          headers := some (dictUpdate
            [("Content-Length", toString (Int.ofNat "AB".length))] fsSample.headers),
          session_headers := fsSample.api_client.session_headers },
        { method := Method.patch,
          url := resolveUrl fsSample.api_client.base_url none
            (some (fsSample.filesystem_id ++ "/" ++ "d/f.txt")),
          params := [("path", PyVal.str "d/f.txt"), ("action", PyVal.str "flush"),
                     ("position", PyVal.int (0 + Int.ofNat "AB".length))],
          data := none,
          headers := some (dictUpdate
            [("Content-Length", "0"), ("x-ms-content-type", "text/plain")] fsSample.headers),
          session_headers := fsSample.api_client.session_headers }],
        fsSample.api_client, ⟨[], []⟩,
        Except.ok (OpResult.command
          { api_client := fsSample.api_client, response := some resp200 })⟩ :=
  C6_write_append_flush fsSample ⟨[0, 1], [resp201, resp200]⟩ "d/f.txt" "AB" "text/plain" 0
    1000000 0 1 [] resp201 resp200 [] rfl rfl (by decide) (by decide) rfl (by decide) (by decide)

/-- C7 evidence: update_path leaks the path argument into the query
parameters (its exclusion list reads pat, a name not in scope, instead
of path), while the sibling create_path filters path out as the claim
describes. -/
theorem C7_update_path_query_params :
    (update_path sampleClient ⟨[0], [resp200]⟩ "fs" "file.txt" (some "contents") none
        [("action", PyVal.str "append"), ("position", PyVal.int 0)]).log.map
      (fun r => r.params)
      = [[("path", PyVal.str "file.txt"), ("action", PyVal.str "append"),
          ("position", PyVal.int 0)]] ∧
    (create_path sampleClient ⟨[0], [resp200]⟩ "fs" "file.txt" none
        [("resource", PyVal.str "file")]).log.map (fun r => r.params)
      = [[("resource", PyVal.str "file")]] := by
  constructor
  · decide
  · decide

/-- C10: constructing the OAuth2 client performs exactly one eager POST
to the token endpoint (the one logged request, with no recursive
refresh because the refresh-check is skipped for the token POST
itself), sets the session Authorization header before any public
operation can run, and stores the token response wrapped in a Command
(the second component of the returned pair, standing for the
refresh_oauth2_token_command attribute). -/
theorem C10_init_eager (account dns tenant cid secret : String) (w : World)
    (resp : Response) (netRest : List Response) (tok : String) (ein n2 : Int)
    (clockRest : List Int)
    (hnet : w.net = resp :: netRest)
    (hclock : w.clock = n2 :: clockRest)
    (hok : resp.status_code < 400)
    (htok : resp.json_access_token = some tok)
    (hein : resp.json_expires_in = some ein) :
    OAuth2AdlsApiClient_init account dns tenant cid secret w =
      ⟨[tokenPostRequest (initClientState account dns tenant cid secret)],
        refreshedState (initClientState account dns tenant cid secret) tok ein n2,
        ⟨clockRest, netRest⟩,
        Except.ok
          (refreshedState (initClientState account dns tenant cid secret) tok ein n2,
           { api_client := refreshedState (initClientState account dns tenant cid secret) tok ein n2,
             response := some resp })⟩ ∧
    tokenCount tenant (OAuth2AdlsApiClient_init account dns tenant cid secret w).log = 1 ∧
    dictGet (refreshedState (initClientState account dns tenant cid secret) tok ein
        n2).session_headers "Authorization" = some ("Bearer " ++ tok) := by
  have hro : raiseForStatus resp = false := by
    simp only [raiseForStatus, Bool.and_eq_false_iff, decide_eq_false_iff_not]
    omega
  have h := init_success account dns tenant cid secret w resp netRest tok ein n2 clockRest
    hnet hclock hro htok hein
  refine ⟨h, ?_, ?_⟩
  · rw [h]
    simp [tokenCount, tokenPostRequest, initClientState, AUTH2_TOKEN_URL]
  · simp only [refreshedState]
    exact dictGet_dictSet _ _ _

/-- Witness for C10 at concrete inputs. -/
theorem C10_init_eager_witness :
    tokenCount "ten" (OAuth2AdlsApiClient_init "acct" "dfs.core.windows.net" "ten" "cid" "sec"
      ⟨[5], [token200]⟩).log = 1 ∧
    dictGet (refreshedState (initClientState "acct" "dfs.core.windows.net" "ten" "cid" "sec")
      "newtok" 3600 5).session_headers "Authorization" = some ("Bearer " ++ "newtok") := by
  have h := C10_init_eager "acct" "dfs.core.windows.net" "ten" "cid" "sec"
    ⟨[5], [token200]⟩ token200 [] "newtok" 3600 5 [] rfl rfl (by decide) rfl rfl
  exact ⟨h.2.1, h.2.2⟩


/-- C5: in a full scenario from construction, while every clock value
seen during a sequence of dispatched operations is below the recorded
expiry (the real expiry minus the 45 second margin), exactly one
token-endpoint call occurs in total, namely the one made at
construction; once the recorded expiry has been reached, the next
operation performs exactly one additional token-endpoint call, and it
is issued before that operation's own request. -/
theorem C5_token_refresh_temporal
    (account dns tenant cid secret : String) (w : World)
    (tokResp tokResp2 dResp : Response) (tok tok2 : String) (ein ein2 : Int)
    (n2 nB nB2 : Int) (clockA clockRest : List Int)
    (netA netRest : List Response)
    (ops : List Dispatch) (d : Dispatch)
    (sInit : Step (ClientState × Command)) (t : Step Unit) (u : Step Response)
    (E : Int)
    (hw : w = ⟨n2 :: (clockA ++ nB :: nB2 :: clockRest),
               tokResp :: (netA ++ tokResp2 :: dResp :: netRest)⟩)
    (hE : E = n2 + (ein - 45) * 1000000)
    (htokA : tokResp.json_access_token = some tok)
    (heinA : tokResp.json_expires_in = some ein)
    (hokA : raiseForStatus tokResp = false)
    (htokB : tokResp2.json_access_token = some tok2)
    (heinB : tokResp2.json_expires_in = some ein2)
    (hokB : raiseForStatus tokResp2 = false)
    (hlenC : clockA.length = ops.length)
    (hlenN : netA.length = ops.length)
    (hclA : ∀ x ∈ clockA, x < E)
    (hnetA : ∀ r ∈ netA, raiseForStatus r = false)
    (hnB : E ≤ nB)
    (hs : sInit = OAuth2AdlsApiClient_init account dns tenant cid secret w)
    (ht : t = runTrace sInit.state sInit.world ops)
    (hu : u = runDispatch t.state t.world d)
    (hurlOps : ∀ x ∈ ops, Dispatch.resolvedUrl (HTTPS_BASE_URL account dns) x
        ≠ AUTH2_TOKEN_URL tenant)
    (hurlD : Dispatch.resolvedUrl (HTTPS_BASE_URL account dns) d ≠ AUTH2_TOKEN_URL tenant) :
    tokenCount tenant (sInit.log ++ t.log) = 1 ∧
    tokenCount tenant u.log = 1 ∧
    u.log.map (fun r => r.url)
      = [AUTH2_TOKEN_URL tenant, Dispatch.resolvedUrl (HTTPS_BASE_URL account dns) d] := by
  subst hw hE hs ht hu
  have hinit := init_success account dns tenant cid secret
    ⟨n2 :: (clockA ++ nB :: nB2 :: clockRest), tokResp :: (netA ++ tokResp2 :: dResp :: netRest)⟩
    tokResp (netA ++ tokResp2 :: dResp :: netRest) tok ein n2 (clockA ++ nB :: nB2 :: clockRest)
    rfl rfl hokA htokA heinA
  set c0 := initClientState account dns tenant cid secret with hc0
  set c1 := refreshedState c0 tok ein n2 with hc1
  have hc1exp : c1.oauth2_token_time_expiration = some (n2 + (ein - 45) * 1000000) := rfl
  simp only [hinit]
  have htrace := runTrace_fresh ops c1 (n2 + (ein - 45) * 1000000)
    clockA (nB :: nB2 :: clockRest) netA (tokResp2 :: dResp :: netRest)
    hc1exp hlenC hlenN hclA hnetA
  simp only [htrace]
  have hdisp := runDispatch_due c1 ⟨nB :: nB2 :: clockRest, tokResp2 :: dResp :: netRest⟩
    (n2 + (ein - 45) * 1000000) nB nB2 clockRest tokResp2 dResp netRest tok2 ein2 d
    hc1exp rfl (by omega) rfl hokB htokB heinB
  simp only [hdisp]
  have hbase1 : c1.base_url = HTTPS_BASE_URL account dns := rfl
  have htenant0 : c0.tenant_id = tenant := rfl
  have htenant1 : c1.tenant_id = tenant := rfl
  have htok0url : (tokenPostRequest c0).url = AUTH2_TOKEN_URL tenant := rfl
  have htok1url : (tokenPostRequest c1).url = AUTH2_TOKEN_URL tenant := rfl
  refine ⟨?_, ?_, ?_⟩
  · simp only [tokenCount, List.countP_append, List.countP_map]
    have h1 : List.countP (fun r => r.url == AUTH2_TOKEN_URL tenant) [tokenPostRequest c0]
        = 1 := by
      simp [List.countP_cons, htok0url]
    have h2 : List.countP ((fun r => r.url == AUTH2_TOKEN_URL tenant) ∘
        Dispatch.requestOf c1) ops = 0 := by
      rw [List.countP_eq_zero]
      intro x hx
      simp only [Function.comp_apply, requestOf_url, hbase1, beq_iff_eq]
      exact hurlOps x hx
    rw [h1, h2]
  · simp only [tokenCount, List.countP_cons, List.countP_nil]
    have hx : ((Dispatch.requestOf (refreshedState c1 tok2 ein2 nB2) d).url
        == AUTH2_TOKEN_URL tenant) = false := by
      simp only [requestOf_url, refreshedState_base, hbase1, beq_eq_false_iff_ne, ne_eq]
      exact hurlD
    simp [htok1url, hx]
  · simp [requestOf_url, refreshedState_base, hbase1, htok1url]


/-- Witness for C5: one construction-time token call, none during the
valid-window trace, and one more (ordered first) for the dispatch after
expiry. -/
theorem C5_token_refresh_temporal_witness :
    tokenCount "ten" (sInitC5ex.log ++ tC5ex.log) = 1 ∧
    tokenCount "ten" uC5ex.log = 1 ∧
    uC5ex.log.map (fun r => r.url)
      = [AUTH2_TOKEN_URL "ten",
         Dispatch.resolvedUrl (HTTPS_BASE_URL "acct" "dfs.core.windows.net") dC5ex] :=
  C5_token_refresh_temporal "acct" "dfs.core.windows.net" "ten" "cid" "sec" wC5ex
    token200 token200 resp200 "newtok" "newtok" 3600 3600
    0 3555000000 3555000001 [5] [] [resp201] []
    opsC5ex dC5ex sInitC5ex tC5ex uC5ex 3555000000
    rfl (by decide) rfl rfl (by decide) rfl rfl (by decide)
    rfl rfl (by decide) (by decide) (by decide)
    rfl rfl rfl (by decide) (by decide)

end Downstage
